import Mathlib

/-!
OCR worker dispatch and GUID kinds.

A shallow embedding of `src/worker/ocr-worker.c` (`newWorker`, `getCurrentEdt`)
and of the `ocrGuidKind` enumeration and the provider function table declared in
`inc/ocr-guid.h`.

Conventions of the embedding:

* `u64`, `u8`, `ocrGuid_t` and pointers are natural numbers; no arithmetic is done on
  them by the embedded code, so no wrap-around is involved.  `NULL` is `0`.
* Functions that the C code reaches only through a declaration or a function
  pointer are fields of a record of collaborators acting on an abstract program
  state `σ`.
* Every embedded function returns a `Run`: the list of collaborator calls it made,
  in order, its outcome (a returned value or a `Fault`), and the final state.
-/

namespace OCR

/-! ## Machine types -/

/-- The C type `u64`; also used for pointers (`void *`, `ocrWorker_t *`). -/
abbrev u64 := Nat

/-- The C type `u8`, the type of provider return codes. -/
abbrev u8 := Nat

/-- The C type `ocrGuid_t`, an opaque identifier. -/
abbrev ocrGuid_t := Nat

/-- The null pointer. -/
def NULL : u64 := 0

/-! ## `ocrGuidKind` (ocr-guid.h, lines 19-30) -/

/-- The enumeration `ocrGuidKind`. -/
inductive ocrGuidKind
  | OCR_GUID_NONE
  | OCR_GUID_ALLOCATOR
  | OCR_GUID_DB
  | OCR_GUID_EDT
  | OCR_GUID_EDT_TEMPLATE
  | OCR_GUID_EVENT
  | OCR_GUID_POLICY
  | OCR_GUID_WORKER
  | OCR_GUID_MEM_TARGET
  | OCR_GUID_COMP_TARGET
  deriving DecidableEq

/-- The integer value the header assigns to each enumerator. -/
def ocrGuidKind.toNat : ocrGuidKind → Nat
  | .OCR_GUID_NONE => 0
  | .OCR_GUID_ALLOCATOR => 1
  | .OCR_GUID_DB => 2
  | .OCR_GUID_EDT => 3
  | .OCR_GUID_EDT_TEMPLATE => 4
  | .OCR_GUID_EVENT => 5
  | .OCR_GUID_POLICY => 6
  | .OCR_GUID_WORKER => 7
  | .OCR_GUID_MEM_TARGET => 8
  | .OCR_GUID_COMP_TARGET => 9

/-- The enumerator with a given integer value, if there is one. -/
def ocrGuidKind.decode : Nat → Option ocrGuidKind
  | 0 => some .OCR_GUID_NONE
  | 1 => some .OCR_GUID_ALLOCATOR
  | 2 => some .OCR_GUID_DB
  | 3 => some .OCR_GUID_EDT
  | 4 => some .OCR_GUID_EDT_TEMPLATE
  | 5 => some .OCR_GUID_EVENT
  | 6 => some .OCR_GUID_POLICY
  | 7 => some .OCR_GUID_WORKER
  | 8 => some .OCR_GUID_MEM_TARGET
  | 9 => some .OCR_GUID_COMP_TARGET
  | _ => none

/-- All enumerators of `ocrGuidKind`, in declaration order. -/
def ocrGuidKind.all : List ocrGuidKind :=
  [.OCR_GUID_NONE, .OCR_GUID_ALLOCATOR, .OCR_GUID_DB, .OCR_GUID_EDT,
   .OCR_GUID_EDT_TEMPLATE, .OCR_GUID_EVENT, .OCR_GUID_POLICY, .OCR_GUID_WORKER,
   .OCR_GUID_MEM_TARGET, .OCR_GUID_COMP_TARGET]

/-! ## Runs: call log, outcome, final state -/

/-- The fat handle `ocrFatGuid_t`: an identifier and a metadata pointer. -/
structure ocrFatGuid_t where
  guid : ocrGuid_t
  metaDataPtr : u64
  deriving DecidableEq

/-- A call to a collaborator, with its arguments: the three worker back-end
constructors, the current-worker accessor, the operations of the provider function
table, and the worker query `getCurrentEDT`. -/
inductive Call
  | newWorkerFsimXE (factory per_type_configuration per_instance_configuration : u64)
  | newWorkerFsimCE (factory per_type_configuration per_instance_configuration : u64)
  | newWorkerHc (factory per_type_configuration per_instance_configuration : u64)
  | ocr_get_current_worker_guid
  | getGuid (val : u64) (kind : ocrGuidKind)
  | createGuid (size : u64) (kind : ocrGuidKind)
  | getVal (guid : ocrGuid_t) (kindRequested : Bool)
  | getKind (guid : ocrGuid_t)
  | releaseGuid (guid : ocrFatGuid_t) (releaseVal : Bool)
  | getCurrentEDT (self : u64)
  deriving DecidableEq

/-- Whether a call is one of the three worker back-end constructors. -/
def Call.isConstructor : Call → Bool
  | .newWorkerFsimXE _ _ _ => true
  | .newWorkerFsimCE _ _ _ => true
  | .newWorkerHc _ _ _ => true
  | _ => false

/-- Whether a call is an operation of the provider function table. -/
def Call.isProviderOp : Call → Bool
  | .getGuid _ _ => true
  | .createGuid _ _ => true
  | .getVal _ _ => true
  | .getKind _ => true
  | .releaseGuid _ _ => true
  | _ => false

/-- Whether a call is a provider operation that inserts into or removes from the
mapping: `getGuid`, `createGuid` or `releaseGuid`. -/
def Call.isMappingUpdate : Call → Bool
  | .getGuid _ _ => true
  | .createGuid _ _ => true
  | .releaseGuid _ _ => true
  | _ => false

/-- The ways the embedded code stops without returning. -/
inductive Fault
  | assertFailed (msg : String)
  | nullDeref
  | invalidDeref (addr : u64)
  deriving DecidableEq

/-- The result of running an embedded function from a state. -/
structure Run (σ : Type) (α : Type) where
  calls : List Call
  outcome : Except Fault α
  state : σ

/-! ## `newWorker` (ocr-worker.c, lines 39-54) -/

/-- The enumerators of `ocr_worker_kind`.  The header `ocr-worker.h` that assigns
their values is not among the sources, so the values are parameters; they are pairwise
distinct, as C requires of the `case` labels of one `switch`. -/
structure ocr_worker_kind where
  OCR_WORKER_XE : Int
  OCR_WORKER_CE : Int
  OCR_WORKER_HC : Int
  xe_ne_ce : OCR_WORKER_XE ≠ OCR_WORKER_CE
  xe_ne_hc : OCR_WORKER_XE ≠ OCR_WORKER_HC
  ce_ne_hc : OCR_WORKER_CE ≠ OCR_WORKER_HC

/-- The three back-end constructors declared at lines 39-41.  Each takes the
factory pointer and the two configuration pointers, may change the program state, and
returns an `ocrWorker_t *`. -/
structure WorkerBackends (σ : Type) where
  newWorkerHc : u64 → u64 → u64 → σ → u64 × σ
  newWorkerFsimXE : u64 → u64 → u64 → σ → u64 × σ
  newWorkerFsimCE : u64 → u64 → u64 → σ → u64 × σ

/-- The function `newWorker`.  `ndebug` tells whether `assert` is compiled out
(`NDEBUG` defined); `workerType` is the integer held by the `ocr_worker_kind`
argument. -/
def newWorker {σ : Type} (K : ocr_worker_kind) (B : WorkerBackends σ) (ndebug : Bool)
    (workerType : Int) (per_type_configuration per_instance_configuration : u64)
    (s : σ) : Run σ u64 :=
  if workerType = K.OCR_WORKER_XE then
    let r := B.newWorkerFsimXE NULL per_type_configuration per_instance_configuration s
    { calls := [Call.newWorkerFsimXE NULL per_type_configuration per_instance_configuration],
      outcome := .ok r.1, state := r.2 }
  else if workerType = K.OCR_WORKER_CE then
    let r := B.newWorkerFsimCE NULL per_type_configuration per_instance_configuration s
    { calls := [Call.newWorkerFsimCE NULL per_type_configuration per_instance_configuration],
      outcome := .ok r.1, state := r.2 }
  else if workerType = K.OCR_WORKER_HC then
    let r := B.newWorkerHc NULL per_type_configuration per_instance_configuration s
    { calls := [Call.newWorkerHc NULL per_type_configuration per_instance_configuration],
      outcome := .ok r.1, state := r.2 }
  else if ndebug then
    { calls := [], outcome := .ok NULL, state := s }
  else
    { calls := [], outcome := .error (Fault.assertFailed "Unrecognized worker kind"),
      state := s }

/-! ## `getCurrentEdt` (ocr-worker.c, lines 56-61) -/

/-- What one call of the provider's `getVal` (ocr-guid.h, line 135) hands back: the
`u8` return code (0 on success), the value stored through `val` if one was stored, and
the kind stored through `kind` if one was stored. -/
structure GetValResult where
  rc : u8
  val : Option u64
  kind : Option ocrGuidKind
  deriving DecidableEq

/-- The part of an `ocrWorker_t` object that `getCurrentEdt` uses: the function
pointer `getCurrentEDT`, which takes the worker itself and answers with an identifier. -/
structure ocrWorker_t (σ : Type) where
  getCurrentEDT : u64 → σ → ocrGuid_t

/-- What `getCurrentEdt` reaches outside its own body.  None of the three is
among the sources.  The accessor and the worker query read the state (section 6 of the
specification: an accessor whose result alone is consumed, and a query); `getVal`, a
provider operation, may also change it.

* `ocr_get_current_worker_guid`: the accessor of the calling thread's worker identifier;
* `getVal`: `globalGuidProvider->getVal(globalGuidProvider, guid, &val, kind)`, always
  called with a non-null `val`; the `Bool` tells whether `kind` is non-null;
* `workerAt`: the `ocrWorker_t` object stored at a non-null address, if the address
  holds one. -/
structure Collaborators (σ : Type) where
  ocr_get_current_worker_guid : σ → ocrGuid_t
  getVal : σ → ocrGuid_t → Bool → GetValResult × σ
  workerAt : σ → u64 → Option (ocrWorker_t σ)

/-- The function `getCurrentEdt`. -/
def getCurrentEdt {σ : Type} (E : Collaborators σ) (s : σ) : Run σ ocrGuid_t :=
  let workerGuid := E.ocr_get_current_worker_guid s
  let worker0 : u64 := NULL
  let r := E.getVal s workerGuid false
  let worker : u64 := r.1.val.getD worker0
  let calls := [Call.ocr_get_current_worker_guid, Call.getVal workerGuid false]
  if worker = NULL then
    { calls := calls, outcome := .error Fault.nullDeref, state := r.2 }
  else
    match E.workerAt r.2 worker with
    | none => { calls := calls, outcome := .error (Fault.invalidDeref worker), state := r.2 }
    | some obj =>
      { calls := calls ++ [Call.getCurrentEDT worker],
        outcome := .ok (obj.getCurrentEDT worker r.2), state := r.2 }

/-! ## The GUID provider

The header declares the provider only as a table of function pointers; no provider
implementation is among the sources.  The definitions of this section follow sections
3, 4.1 and 7 of the specification. -/

/-- Modelled from the spec: the errors of section 7 that a provider operation can
report (no provider implementation is among the sources). -/
inductive GuidError
  | UnknownGuid
  | AllocationError
  | ProviderError
  deriving DecidableEq

/-- Modelled from the spec: the non-zero `u8` code returned for each error (the header
says "0 on success or an error code"; the codes themselves are not among the sources). -/
def GuidError.code : GuidError → u8
  | .UnknownGuid => 1
  | .AllocationError => 2
  | .ProviderError => 3

/-- Modelled from the spec: the state of a provider instance, missing from the sources.
It holds the identifier-to-(value, kind) mapping, the next identifier to mint and the
size of the identifier space, and the storage blocks (address, size) that the provider
allocated, with the next free address and the end of its memory. -/
structure GuidProvider where
  mapping : List (ocrGuid_t × u64 × ocrGuidKind)
  nextGuid : ocrGuid_t
  guidLimit : Nat
  blocks : List (u64 × Nat)
  nextAddr : u64
  memLimit : Nat
  deriving DecidableEq

/-- The entry bound to an identifier in a mapping, if the identifier is live. -/
def lookupGuid : List (ocrGuid_t × u64 × ocrGuidKind) → ocrGuid_t → Option (u64 × ocrGuidKind)
  | [], _ => none
  | e :: rest, g => if e.1 = g then some e.2 else lookupGuid rest g

/-- The mapping without the entries of an identifier. -/
def removeGuid : List (ocrGuid_t × u64 × ocrGuidKind) → ocrGuid_t →
    List (ocrGuid_t × u64 × ocrGuidKind)
  | [], _ => []
  | e :: rest, g => if e.1 = g then removeGuid rest g else e :: removeGuid rest g

/-- Modelled from the spec: `getGuid(value, kind)` of section 4.1, missing from the
sources.  It binds the value to a freshly minted identifier and inserts one mapping
entry; it fails with `ProviderError` when the identifier space is exhausted or the
identifier to mint is already live. -/
def GuidProvider.getGuid (p : GuidProvider) (val : u64) (kind : ocrGuidKind) :
    Except GuidError (ocrGuid_t × GuidProvider) :=
  if p.guidLimit ≤ p.nextGuid then .error .ProviderError
  else if (lookupGuid p.mapping p.nextGuid).isSome then .error .ProviderError
  else .ok (p.nextGuid,
    { p with mapping := (p.nextGuid, val, kind) :: p.mapping, nextGuid := p.nextGuid + 1 })

/-- Modelled from the spec: `createGuid(size, kind)` of section 4.1, missing from the
sources.  It allocates storage of the requested size and binds its address to a fresh
identifier in one step; it fails with `AllocationError` when the size cannot be
satisfied. -/
def GuidProvider.createGuid (p : GuidProvider) (size : Nat) (kind : ocrGuidKind) :
    Except GuidError (ocrFatGuid_t × GuidProvider) :=
  if p.guidLimit ≤ p.nextGuid then .error .ProviderError
  else if (lookupGuid p.mapping p.nextGuid).isSome then .error .ProviderError
  else if p.memLimit < p.nextAddr + size then .error .AllocationError
  else .ok ({ guid := p.nextGuid, metaDataPtr := p.nextAddr },
    { p with mapping := (p.nextGuid, p.nextAddr, kind) :: p.mapping,
             nextGuid := p.nextGuid + 1,
             blocks := (p.nextAddr, size) :: p.blocks,
             nextAddr := p.nextAddr + size })

/-- Modelled from the spec: `getVal(guid)` of section 4.1, missing from the sources.
It resolves a live identifier to its value and kind, fails with `UnknownGuid`
otherwise, and never changes the provider. -/
def GuidProvider.getVal (p : GuidProvider) (guid : ocrGuid_t) :
    Except GuidError (u64 × ocrGuidKind) :=
  match lookupGuid p.mapping guid with
  | some e => .ok e
  | none => .error .UnknownGuid

/-- Modelled from the spec: `getKind(guid)` of section 4.1, missing from the sources. -/
def GuidProvider.getKind (p : GuidProvider) (guid : ocrGuid_t) :
    Except GuidError ocrGuidKind :=
  match lookupGuid p.mapping guid with
  | some e => .ok e.2
  | none => .error .UnknownGuid

/-- Modelled from the spec: `releaseGuid(guid, releaseVal)` of section 4.1, missing
from the sources.  It removes the mapping entry of a live identifier and, when
`releaseVal` is set, frees the storage block at the bound value; it fails with
`UnknownGuid` when the identifier is not live. -/
def GuidProvider.releaseGuid (p : GuidProvider) (guid : ocrFatGuid_t) (releaseVal : Bool) :
    Except GuidError GuidProvider :=
  match lookupGuid p.mapping guid.guid with
  | none => .error .UnknownGuid
  | some e =>
    .ok { p with mapping := removeGuid p.mapping guid.guid,
                 blocks := if releaseVal then p.blocks.filter (fun b => b.1 != e.1)
                           else p.blocks }

/-- One operation requested from a provider. -/
inductive ProviderOp
  | getGuid (val : u64) (kind : ocrGuidKind)
  | createGuid (size : Nat) (kind : ocrGuidKind)
  | getVal (guid : ocrGuid_t)
  | getKind (guid : ocrGuid_t)
  | releaseGuid (guid : ocrFatGuid_t) (releaseVal : Bool)
  deriving DecidableEq

/-- Whether an operation is a `releaseGuid` of the given identifier. -/
def ProviderOp.releases (g : ocrGuid_t) : ProviderOp → Bool
  | .releaseGuid fg _ => fg.guid == g
  | _ => false

/-- The provider after one operation; a failed operation leaves it as it was. -/
def GuidProvider.step (p : GuidProvider) : ProviderOp → GuidProvider
  | .getGuid val kind =>
    match p.getGuid val kind with
    | .ok r => r.2
    | .error _ => p
  | .createGuid size kind =>
    match p.createGuid size kind with
    | .ok r => r.2
    | .error _ => p
  | .getVal _ => p
  | .getKind _ => p
  | .releaseGuid guid releaseVal =>
    match p.releaseGuid guid releaseVal with
    | .ok q => q
    | .error _ => p

/-- The provider after a sequence of operations. -/
def GuidProvider.run (p : GuidProvider) (ops : List ProviderOp) : GuidProvider :=
  ops.foldl GuidProvider.step p

/-- A provider with no live identifier. -/
def GuidProvider.empty : GuidProvider :=
  { mapping := [], nextGuid := 1, guidLimit := 2 ^ 64, blocks := [], nextAddr := 4096,
    memLimit := 2 ^ 32 }

/-! ## A concrete program state -/

/-- Which back-end built a worker object. -/
inductive Backend
  | FsimXE
  | FsimCE
  | Hc
  deriving DecidableEq

/-- A worker object in memory: the back-end that built it, the arguments it was built
from, and the task it is executing. -/
structure WorkerObject where
  backend : Backend
  factory : u64
  per_type_configuration : u64
  per_instance_configuration : u64
  currentEDT : ocrGuid_t
  deriving DecidableEq

/-- A program state: the global provider, the worker identifier bound to the calling
thread, and the worker objects in memory; the object at address `a + 1` is
`workers[a]`. -/
structure World where
  globalGuidProvider : GuidProvider
  currentWorkerGuid : ocrGuid_t
  workers : List WorkerObject
  deriving DecidableEq

/-- Modelled from the spec: a worker back-end constructor, missing from the sources.
Section 6 says it takes a nullable factory reference and two configuration blobs and
"returns a live worker object"; here it places a new object in memory and returns
its address. -/
def World.construct (b : Backend) (factory per_type_configuration per_instance_configuration : u64)
    (s : World) : u64 × World :=
  (s.workers.length + 1,
   { s with workers := s.workers ++
      [{ backend := b, factory := factory, per_type_configuration := per_type_configuration,
         per_instance_configuration := per_instance_configuration, currentEDT := 0 }] })

/-- Modelled from the spec: the three back-end constructors over `World`. -/
def World.backends : WorkerBackends World :=
  { newWorkerHc := World.construct .Hc
    newWorkerFsimXE := World.construct .FsimXE
    newWorkerFsimCE := World.construct .FsimCE }

/-- Modelled from the spec: the contract of section 6 for the back-end constructors,
which are missing from the sources: each "returns a live worker object", so the
pointer it returns is not null and, in the state the constructor leaves, the memory
view `workerAt` holds a worker object at that pointer. -/
def WorkerBackends.ReturnLiveWorkers {σ : Type} (B : WorkerBackends σ)
    (workerAt : σ → u64 → Option (ocrWorker_t σ)) : Prop :=
  ∀ (factory t i : u64) (s : σ),
    ((B.newWorkerHc factory t i s).1 ≠ NULL ∧
      (workerAt (B.newWorkerHc factory t i s).2 (B.newWorkerHc factory t i s).1).isSome) ∧
    ((B.newWorkerFsimXE factory t i s).1 ≠ NULL ∧
      (workerAt (B.newWorkerFsimXE factory t i s).2
        (B.newWorkerFsimXE factory t i s).1).isSome) ∧
    ((B.newWorkerFsimCE factory t i s).1 ≠ NULL ∧
      (workerAt (B.newWorkerFsimCE factory t i s).2
        (B.newWorkerFsimCE factory t i s).1).isSome)

/-- The back-end constructors `B` on a state that carries a record of constructor
entries: each constructor, when it is entered, appends its own call with the arguments
it received to the record, and acts on the rest of the state as in `B`. -/
def WorkerBackends.recording {σ : Type} (B : WorkerBackends σ) :
    WorkerBackends (σ × List Call) :=
  { newWorkerHc := fun factory t i s =>
      ((B.newWorkerHc factory t i s.1).1,
       ((B.newWorkerHc factory t i s.1).2, s.2 ++ [Call.newWorkerHc factory t i]))
    newWorkerFsimXE := fun factory t i s =>
      ((B.newWorkerFsimXE factory t i s.1).1,
       ((B.newWorkerFsimXE factory t i s.1).2, s.2 ++ [Call.newWorkerFsimXE factory t i]))
    newWorkerFsimCE := fun factory t i s =>
      ((B.newWorkerFsimCE factory t i s.1).1,
       ((B.newWorkerFsimCE factory t i s.1).2, s.2 ++ [Call.newWorkerFsimCE factory t i])) }

/-- The C view of the provider's `getVal` on the global provider of a `World`: the
return code, and the stores through `val` and (when non-null) `kind`. -/
def World.getVal (s : World) (guid : ocrGuid_t) (kindRequested : Bool) :
    GetValResult × World :=
  match s.globalGuidProvider.getVal guid with
  | .ok e => ({ rc := 0, val := some e.1, kind := if kindRequested then some e.2 else none }, s)
  | .error err => ({ rc := err.code, val := none, kind := none }, s)

/-- The worker object at an address of a `World`, seen as an `ocrWorker_t`. -/
def World.workerAt (s : World) (addr : u64) : Option (ocrWorker_t World) :=
  if addr = NULL then none
  else (s.workers[addr - 1]?).map (fun o => { getCurrentEDT := fun _ _ => o.currentEDT })

/-- The collaborators of `getCurrentEdt` over `World`. -/
def World.collaborators : Collaborators World :=
  { ocr_get_current_worker_guid := fun s => s.currentWorkerGuid
    getVal := World.getVal
    workerAt := World.workerAt }

/-- A sample assignment of the `ocr_worker_kind` enumerators. -/
def sampleKinds : ocr_worker_kind :=
  { OCR_WORKER_XE := 2, OCR_WORKER_CE := 3, OCR_WORKER_HC := 1,
    xe_ne_ce := by decide, xe_ne_hc := by decide, ce_ne_hc := by decide }

/-- A sample state: one worker object at address 1 executing task 42, registered with
the global provider as identifier 1 of kind WORKER, and bound to the calling thread. -/
def sampleWorld : World :=
  { globalGuidProvider :=
      { GuidProvider.empty with
        mapping := [(1, 1, .OCR_GUID_WORKER)], nextGuid := 2 }
    currentWorkerGuid := 1
    workers := [{ backend := .Hc, factory := 0, per_type_configuration := 0,
                  per_instance_configuration := 0, currentEDT := 42 }] }

/-- The sample state with the calling thread bound to identifier 9, which is not live. -/
def staleWorld : World :=
  { sampleWorld with currentWorkerGuid := 9 }

/-- The sample state with the worker object registered under kind EDT instead of
WORKER. -/
def mistaggedWorld : World :=
  { sampleWorld with
    globalGuidProvider :=
      { GuidProvider.empty with mapping := [(1, 1, .OCR_GUID_EDT)], nextGuid := 2 } }

/-- The C view of the provider's `getGuid` on the global provider of a `World`: the
return code and the identifier stored through `guid`. -/
def World.getGuid (s : World) (val : u64) (kind : ocrGuidKind) : (u8 × ocrGuid_t) × World :=
  match s.globalGuidProvider.getGuid val kind with
  | .ok r => ((0, r.1), { s with globalGuidProvider := r.2 })
  | .error err => ((err.code, 0), s)

/-- The round-trip law of section 8 for a provider seen through its C operations
`getGuid` and `getVal`: when `getGuid(v, k)` returns 0 and the identifier `g`, a
`getVal(g)` that follows returns 0 and stores `v`, and `k` when the kind is asked for. -/
def RoundTripLaw {σ : Type} (getGuid : σ → u64 → ocrGuidKind → (u8 × ocrGuid_t) × σ)
    (getVal : σ → ocrGuid_t → Bool → GetValResult × σ) : Prop :=
  ∀ (s : σ) (v : u64) (k : ocrGuidKind), (getGuid s v k).1.1 = 0 →
    ∀ kindRequested : Bool,
      (getVal (getGuid s v k).2 (getGuid s v k).1.2 kindRequested).1 =
        { rc := 0, val := some v, kind := if kindRequested then some k else none }

/-- The sample state before its worker was registered: the provider is empty. -/
def freshWorld : World :=
  { sampleWorld with globalGuidProvider := GuidProvider.empty }

/-- The provider resolves `g` to the value `v` of kind `k` in state `s`: `getVal` returns 0,
stores `v` through `val`, and stores `k` through `kind` when `kind` is not null. -/
def Resolves {σ : Type} (E : Collaborators σ) (s : σ) (g : ocrGuid_t) (v : u64)
    (k : ocrGuidKind) : Prop :=
  ∀ kindRequested : Bool,
    (E.getVal s g kindRequested).1 =
      { rc := 0, val := some v, kind := if kindRequested then some k else none }

/-! ## Theorems: `newWorker` -/

/-- C1: for each of the three kinds and all configuration arguments, `newWorker` makes
the call of the constructor of that kind with a null factory and the two configuration
arguments unchanged and in order, and returns what that call returns, in the state that
call leaves. -/
theorem newWorker_dispatch {σ : Type} (K : ocr_worker_kind) (B : WorkerBackends σ)
    (ndebug : Bool) (typeConfig instanceConfig : u64) (s : σ) :
    newWorker K B ndebug K.OCR_WORKER_XE typeConfig instanceConfig s =
      { calls := [Call.newWorkerFsimXE NULL typeConfig instanceConfig],
        outcome := .ok (B.newWorkerFsimXE NULL typeConfig instanceConfig s).1,
        state := (B.newWorkerFsimXE NULL typeConfig instanceConfig s).2 } ∧
    newWorker K B ndebug K.OCR_WORKER_CE typeConfig instanceConfig s =
      { calls := [Call.newWorkerFsimCE NULL typeConfig instanceConfig],
        outcome := .ok (B.newWorkerFsimCE NULL typeConfig instanceConfig s).1,
        state := (B.newWorkerFsimCE NULL typeConfig instanceConfig s).2 } ∧
    newWorker K B ndebug K.OCR_WORKER_HC typeConfig instanceConfig s =
      { calls := [Call.newWorkerHc NULL typeConfig instanceConfig],
        outcome := .ok (B.newWorkerHc NULL typeConfig instanceConfig s).1,
        state := (B.newWorkerHc NULL typeConfig instanceConfig s).2 } := by
  refine ⟨?_, ?_, ?_⟩
  · simp [newWorker]
  · simp [newWorker, K.xe_ne_ce.symm]
  · simp [newWorker, K.xe_ne_hc.symm, K.ce_ne_hc.symm]

/-- C2: with `assert` compiled in, `newWorker` stops on the violated assertion
"Unrecognized worker kind" exactly when the kind value is none of the three
enumerators, and it then has called nothing and changed nothing; in either build it
stops without returning only for such values, and for such values it never returns a
non-null worker. -/
theorem newWorker_unrecognized_kind {σ : Type} (K : ocr_worker_kind) (B : WorkerBackends σ)
    (typeConfig instanceConfig : u64) (s : σ) (workerType : Int) :
    ((workerType ≠ K.OCR_WORKER_XE ∧ workerType ≠ K.OCR_WORKER_CE ∧
        workerType ≠ K.OCR_WORKER_HC) →
      newWorker K B false workerType typeConfig instanceConfig s =
        { calls := [], outcome := .error (Fault.assertFailed "Unrecognized worker kind"),
          state := s }) ∧
    (∀ (ndebug : Bool) (f : Fault),
      (newWorker K B ndebug workerType typeConfig instanceConfig s).outcome = .error f →
        workerType ≠ K.OCR_WORKER_XE ∧ workerType ≠ K.OCR_WORKER_CE ∧
          workerType ≠ K.OCR_WORKER_HC) ∧
    ((workerType ≠ K.OCR_WORKER_XE ∧ workerType ≠ K.OCR_WORKER_CE ∧
        workerType ≠ K.OCR_WORKER_HC) →
      ∀ (ndebug : Bool) (w : u64),
        (newWorker K B ndebug workerType typeConfig instanceConfig s).outcome = .ok w →
          w = NULL) := by
  refine ⟨?_, ?_, ?_⟩
  · rintro ⟨h1, h2, h3⟩
    simp [newWorker, h1, h2, h3]
  · intro ndebug f hf
    unfold newWorker at hf
    split_ifs at hf with h1 h2 h3 h4
    exact ⟨h1, h2, h3⟩
  · rintro ⟨h1, h2, h3⟩ ndebug w hw
    cases ndebug <;> simp [newWorker, h1, h2, h3] at hw
    exact hw.symm

/-- Witness of C2 at kind value 7, which is none of the sample enumerators. -/
theorem newWorker_unrecognized_kind_witness :
    newWorker sampleKinds World.backends false 7 10 20 sampleWorld =
      { calls := [], outcome := .error (Fault.assertFailed "Unrecognized worker kind"),
        state := sampleWorld } :=
  (newWorker_unrecognized_kind sampleKinds World.backends 10 20 sampleWorld 7).1
    (by decide)

/-- C3: when the back-end constructors return live worker objects, as section 6 of the
specification says they do, then for each of the three kinds and all configuration
arguments `newWorker` returns the pointer that the constructor of that kind returned,
in the state that constructor left; that pointer is not null, and in the final state
it is the address of a worker object. -/
theorem newWorker_returns_worker {σ : Type} (K : ocr_worker_kind) (B : WorkerBackends σ)
    (workerAt : σ → u64 → Option (ocrWorker_t σ)) (hB : B.ReturnLiveWorkers workerAt)
    (ndebug : Bool) (typeConfig instanceConfig : u64) (s : σ) :
    (∃ (w : u64) (obj : ocrWorker_t σ),
      (newWorker K B ndebug K.OCR_WORKER_XE typeConfig instanceConfig s).outcome = .ok w ∧
      w ≠ NULL ∧
      w = (B.newWorkerFsimXE NULL typeConfig instanceConfig s).1 ∧
      (newWorker K B ndebug K.OCR_WORKER_XE typeConfig instanceConfig s).state =
        (B.newWorkerFsimXE NULL typeConfig instanceConfig s).2 ∧
      workerAt (newWorker K B ndebug K.OCR_WORKER_XE typeConfig instanceConfig s).state w =
        some obj) ∧
    (∃ (w : u64) (obj : ocrWorker_t σ),
      (newWorker K B ndebug K.OCR_WORKER_CE typeConfig instanceConfig s).outcome = .ok w ∧
      w ≠ NULL ∧
      w = (B.newWorkerFsimCE NULL typeConfig instanceConfig s).1 ∧
      (newWorker K B ndebug K.OCR_WORKER_CE typeConfig instanceConfig s).state =
        (B.newWorkerFsimCE NULL typeConfig instanceConfig s).2 ∧
      workerAt (newWorker K B ndebug K.OCR_WORKER_CE typeConfig instanceConfig s).state w =
        some obj) ∧
    (∃ (w : u64) (obj : ocrWorker_t σ),
      (newWorker K B ndebug K.OCR_WORKER_HC typeConfig instanceConfig s).outcome = .ok w ∧
      w ≠ NULL ∧
      w = (B.newWorkerHc NULL typeConfig instanceConfig s).1 ∧
      (newWorker K B ndebug K.OCR_WORKER_HC typeConfig instanceConfig s).state =
        (B.newWorkerHc NULL typeConfig instanceConfig s).2 ∧
      workerAt (newWorker K B ndebug K.OCR_WORKER_HC typeConfig instanceConfig s).state w =
        some obj) := by
  obtain ⟨⟨hhc, lhc⟩, ⟨hxe, lxe⟩, ⟨hce, lce⟩⟩ := hB NULL typeConfig instanceConfig s
  obtain ⟨oxe, hoxe⟩ := Option.isSome_iff_exists.mp lxe
  obtain ⟨oce, hoce⟩ := Option.isSome_iff_exists.mp lce
  obtain ⟨ohc, hohc⟩ := Option.isSome_iff_exists.mp lhc
  refine ⟨⟨_, oxe, ?_, hxe, rfl, ?_, ?_⟩, ⟨_, oce, ?_, hce, rfl, ?_, ?_⟩,
    ⟨_, ohc, ?_, hhc, rfl, ?_, ?_⟩⟩
  · simp [newWorker]
  · simp [newWorker]
  · simpa [newWorker] using hoxe
  · simp [newWorker, K.xe_ne_ce.symm]
  · simp [newWorker, K.xe_ne_ce.symm]
  · simpa [newWorker, K.xe_ne_ce.symm] using hoce
  · simp [newWorker, K.xe_ne_hc.symm, K.ce_ne_hc.symm]
  · simp [newWorker, K.xe_ne_hc.symm, K.ce_ne_hc.symm]
  · simpa [newWorker, K.xe_ne_hc.symm, K.ce_ne_hc.symm] using hohc

/-- The constructors over `World` return the non-null address of the worker object
they placed in memory. -/
theorem World.backends_returnLiveWorkers :
    World.backends.ReturnLiveWorkers World.workerAt := by
  intro factory t i s
  simp [World.backends, World.construct, World.workerAt, NULL]

/-- Witness of C3 on the sample state, with the constructors over `World`: for kind XE
`newWorker` returns address 2, where the new worker object now lives. -/
theorem newWorker_returns_worker_witness :
    World.backends.ReturnLiveWorkers World.workerAt ∧
    (∃ (w : u64) (obj : ocrWorker_t World),
      (newWorker sampleKinds World.backends false sampleKinds.OCR_WORKER_XE 10 20
        sampleWorld).outcome = .ok w ∧
      w ≠ NULL ∧
      w = (World.backends.newWorkerFsimXE NULL 10 20 sampleWorld).1 ∧
      (newWorker sampleKinds World.backends false sampleKinds.OCR_WORKER_XE 10 20
        sampleWorld).state = (World.backends.newWorkerFsimXE NULL 10 20 sampleWorld).2 ∧
      World.workerAt (newWorker sampleKinds World.backends false sampleKinds.OCR_WORKER_XE
        10 20 sampleWorld).state w = some obj) :=
  ⟨World.backends_returnLiveWorkers,
   (newWorker_returns_worker sampleKinds World.backends World.workerAt
      World.backends_returnLiveWorkers false 10 20 sampleWorld).1⟩

/-- C10: `newWorker` invokes at most one back-end constructor per call.  With
constructors that record their own entry in the state, the record grows by exactly the
calls `newWorker` reports, and those are at most one.  For each of the three kinds the
run is one application of that kind's constructor to the initial state (its call, its
result, its final state) and does not depend on the other two constructors.  For a
kind value that is none of the three no constructor is entered: the record and the
state are unchanged, the run does not depend on the constructors, and when `assert` is
compiled out the run returns the null worker. -/
theorem newWorker_constructor_calls {σ : Type} (K : ocr_worker_kind) (B : WorkerBackends σ)
    (ndebug : Bool) (typeConfig instanceConfig : u64) (s : σ) (workerType : Int) :
    (∀ record : List Call,
      (newWorker K B.recording ndebug workerType typeConfig instanceConfig
          (s, record)).state.2 =
        record ++ (newWorker K B ndebug workerType typeConfig instanceConfig s).calls) ∧
    (newWorker K B ndebug workerType typeConfig instanceConfig s).calls.length ≤ 1 ∧
    ((newWorker K B ndebug workerType typeConfig instanceConfig s).calls.filter
        Call.isConstructor).length ≤ 1 ∧
    (newWorker K B ndebug K.OCR_WORKER_XE typeConfig instanceConfig s =
        { calls := [Call.newWorkerFsimXE NULL typeConfig instanceConfig],
          outcome := .ok (B.newWorkerFsimXE NULL typeConfig instanceConfig s).1,
          state := (B.newWorkerFsimXE NULL typeConfig instanceConfig s).2 } ∧
      ∀ B2 : WorkerBackends σ, B2.newWorkerFsimXE = B.newWorkerFsimXE →
        newWorker K B2 ndebug K.OCR_WORKER_XE typeConfig instanceConfig s =
          newWorker K B ndebug K.OCR_WORKER_XE typeConfig instanceConfig s) ∧
    (newWorker K B ndebug K.OCR_WORKER_CE typeConfig instanceConfig s =
        { calls := [Call.newWorkerFsimCE NULL typeConfig instanceConfig],
          outcome := .ok (B.newWorkerFsimCE NULL typeConfig instanceConfig s).1,
          state := (B.newWorkerFsimCE NULL typeConfig instanceConfig s).2 } ∧
      ∀ B2 : WorkerBackends σ, B2.newWorkerFsimCE = B.newWorkerFsimCE →
        newWorker K B2 ndebug K.OCR_WORKER_CE typeConfig instanceConfig s =
          newWorker K B ndebug K.OCR_WORKER_CE typeConfig instanceConfig s) ∧
    (newWorker K B ndebug K.OCR_WORKER_HC typeConfig instanceConfig s =
        { calls := [Call.newWorkerHc NULL typeConfig instanceConfig],
          outcome := .ok (B.newWorkerHc NULL typeConfig instanceConfig s).1,
          state := (B.newWorkerHc NULL typeConfig instanceConfig s).2 } ∧
      ∀ B2 : WorkerBackends σ, B2.newWorkerHc = B.newWorkerHc →
        newWorker K B2 ndebug K.OCR_WORKER_HC typeConfig instanceConfig s =
          newWorker K B ndebug K.OCR_WORKER_HC typeConfig instanceConfig s) ∧
    ((workerType ≠ K.OCR_WORKER_XE ∧ workerType ≠ K.OCR_WORKER_CE ∧
        workerType ≠ K.OCR_WORKER_HC) →
      (newWorker K B ndebug workerType typeConfig instanceConfig s).calls = [] ∧
      (newWorker K B ndebug workerType typeConfig instanceConfig s).state = s ∧
      (∀ record : List Call,
        (newWorker K B.recording ndebug workerType typeConfig instanceConfig
          (s, record)).state = (s, record)) ∧
      (∀ B2 : WorkerBackends σ,
        newWorker K B2 ndebug workerType typeConfig instanceConfig s =
          newWorker K B ndebug workerType typeConfig instanceConfig s) ∧
      newWorker K B true workerType typeConfig instanceConfig s =
        { calls := [], outcome := .ok NULL, state := s }) := by
  refine ⟨?_, ?_, ?_, ⟨?_, ?_⟩, ⟨?_, ?_⟩, ⟨?_, ?_⟩, ?_⟩
  · intro record
    unfold newWorker
    split_ifs <;> simp [WorkerBackends.recording]
  · unfold newWorker
    split_ifs <;> simp
  · unfold newWorker
    split_ifs <;> simp [Call.isConstructor]
  · simp [newWorker]
  · intro B2 h2
    simp [newWorker, h2]
  · simp [newWorker, K.xe_ne_ce.symm]
  · intro B2 h2
    simp [newWorker, K.xe_ne_ce.symm, h2]
  · simp [newWorker, K.xe_ne_hc.symm, K.ce_ne_hc.symm]
  · intro B2 h2
    simp [newWorker, K.xe_ne_hc.symm, K.ce_ne_hc.symm, h2]
  · rintro ⟨h1, h2, h3⟩
    refine ⟨?_, ?_, ?_, ?_, ?_⟩
    · cases ndebug <;> simp [newWorker, h1, h2, h3]
    · cases ndebug <;> simp [newWorker, h1, h2, h3]
    · intro record
      cases ndebug <;> simp [newWorker, h1, h2, h3]
    · intro B2
      simp [newWorker, h1, h2, h3]
    · simp [newWorker, h1, h2, h3]

/-- Witness of C10 at kind value 7 with `assert` compiled out: no call, the state and
the record of constructor entries unchanged, and the null worker returned. -/
theorem newWorker_constructor_calls_witness :
    (newWorker sampleKinds World.backends true 7 10 20 sampleWorld).calls = [] ∧
    (newWorker sampleKinds World.backends true 7 10 20 sampleWorld).state = sampleWorld ∧
    (∀ record : List Call,
      (newWorker sampleKinds World.backends.recording true 7 10 20
        (sampleWorld, record)).state = (sampleWorld, record)) ∧
    (∀ B2 : WorkerBackends World,
      newWorker sampleKinds B2 true 7 10 20 sampleWorld =
        newWorker sampleKinds World.backends true 7 10 20 sampleWorld) ∧
    newWorker sampleKinds World.backends true 7 10 20 sampleWorld =
      { calls := [], outcome := .ok NULL, state := sampleWorld } :=
  (newWorker_constructor_calls sampleKinds World.backends true 10 20 sampleWorld 7).2.2.2.2.2.2
    (by decide)

/-! ## Theorems: `ocrGuidKind` -/

/-- C9: `ocrGuidKind` has exactly the ten listed tags; their encoding is injective and
is the range 0..9 in declaration order, with NONE encoded as 0; decoding an integer of
0..9 and encoding the result gives the integer back, decoding the encoding of a tag
gives the tag back, no integer above 9 decodes, and no tag other than NONE is encoded
as 0. -/
theorem ocrGuidKind_encoding :
    ocrGuidKind.all.length = 10 ∧
    ocrGuidKind.all.Nodup ∧
    (∀ k : ocrGuidKind, k ∈ ocrGuidKind.all) ∧
    ocrGuidKind.all.map ocrGuidKind.toNat = List.range 10 ∧
    Function.Injective ocrGuidKind.toNat ∧
    ocrGuidKind.OCR_GUID_NONE.toNat = 0 ∧
    (∀ n : Nat, n ≤ 9 → ∃ k, ocrGuidKind.decode n = some k ∧ k.toNat = n) ∧
    (∀ k : ocrGuidKind, ocrGuidKind.decode k.toNat = some k) ∧
    (∀ n : Nat, 9 < n → ocrGuidKind.decode n = none) ∧
    (∀ k : ocrGuidKind, k ≠ .OCR_GUID_NONE → k.toNat ≠ 0) := by
  refine ⟨rfl, by decide, ?_, by decide, ?_, rfl, ?_, ?_, ?_, ?_⟩
  · intro k; cases k <;> decide
  · intro a b h; cases a <;> cases b <;> first | rfl | (exact absurd h (by decide))
  · intro n hn
    interval_cases n <;> exact ⟨_, rfl, rfl⟩
  · intro k; cases k <;> rfl
  · intro n hn
    match n, hn with
    | n + 10, _ => rfl
  · intro k hk; cases k <;> first | (exact absurd rfl hk) | decide

/-- Witness of C9 at the integer 7, which decodes to WORKER. -/
theorem ocrGuidKind_encoding_witness :
    ∃ k, ocrGuidKind.decode 7 = some k ∧ k.toNat = 7 :=
  ocrGuidKind_encoding.2.2.2.2.2.2.1 7 (by decide)

/-! ## Lemmas: the provider mapping -/

/-- Looking up an identifier skips a leading entry of another identifier. -/
theorem lookupGuid_cons_ne (e : ocrGuid_t × u64 × ocrGuidKind)
    (m : List (ocrGuid_t × u64 × ocrGuidKind)) (g : ocrGuid_t) (h : e.1 ≠ g) :
    lookupGuid (e :: m) g = lookupGuid m g := by
  simp [lookupGuid, h]

/-- Looking up an identifier finds a leading entry of that identifier. -/
theorem lookupGuid_cons_self (g : ocrGuid_t) (x : u64 × ocrGuidKind)
    (m : List (ocrGuid_t × u64 × ocrGuidKind)) :
    lookupGuid ((g, x) :: m) g = some x := by
  simp [lookupGuid]

/-- Removing one identifier does not change what another resolves to. -/
theorem lookupGuid_removeGuid_ne (m : List (ocrGuid_t × u64 × ocrGuidKind))
    (g g' : ocrGuid_t) (h : g' ≠ g) :
    lookupGuid (removeGuid m g') g = lookupGuid m g := by
  induction m with
  | nil => rfl
  | cons e rest ih =>
    by_cases he : e.1 = g'
    · have hne : e.1 ≠ g := by rw [he]; exact h
      rw [lookupGuid_cons_ne e rest g hne]
      simp [removeGuid, he, ih]
    · by_cases heg : e.1 = g
      · simp [removeGuid, lookupGuid, heg, h.symm]
      · simp [removeGuid, he, lookupGuid, heg, ih]

/-- A successful `getGuid` mints the next identifier and binds it at the head of the
mapping. -/
theorem GuidProvider.getGuid_ok (p p' : GuidProvider) (v : u64) (k : ocrGuidKind)
    (g : ocrGuid_t) (h : p.getGuid v k = .ok (g, p')) :
    g = p.nextGuid ∧ p'.nextGuid = p.nextGuid + 1 ∧ p'.mapping = (g, v, k) :: p.mapping := by
  unfold GuidProvider.getGuid at h
  split_ifs at h
  cases h
  exact ⟨rfl, rfl, rfl⟩

/-- A binding below the minting counter survives every operation other than a release
of its identifier. -/
theorem GuidProvider.step_preserves (p : GuidProvider) (op : ProviderOp) (g : ocrGuid_t)
    (x : u64 × ocrGuidKind) (hop : op.releases g = false) (hlt : g < p.nextGuid)
    (hlook : lookupGuid p.mapping g = some x) :
    g < (p.step op).nextGuid ∧ lookupGuid (p.step op).mapping g = some x := by
  cases op with
  | getGuid val kind =>
    simp only [GuidProvider.step, GuidProvider.getGuid]
    split_ifs
    · exact ⟨hlt, hlook⟩
    · exact ⟨hlt, hlook⟩
    · refine ⟨Nat.lt_succ_of_lt hlt, ?_⟩
      show lookupGuid ((p.nextGuid, val, kind) :: p.mapping) g = some x
      rw [lookupGuid_cons_ne _ _ _ (Nat.ne_of_gt hlt)]
      exact hlook
  | createGuid size kind =>
    simp only [GuidProvider.step, GuidProvider.createGuid]
    split_ifs
    · exact ⟨hlt, hlook⟩
    · exact ⟨hlt, hlook⟩
    · exact ⟨hlt, hlook⟩
    · refine ⟨Nat.lt_succ_of_lt hlt, ?_⟩
      show lookupGuid ((p.nextGuid, p.nextAddr, kind) :: p.mapping) g = some x
      rw [lookupGuid_cons_ne _ _ _ (Nat.ne_of_gt hlt)]
      exact hlook
  | getVal guid => exact ⟨hlt, hlook⟩
  | getKind guid => exact ⟨hlt, hlook⟩
  | releaseGuid fg releaseVal =>
    have hne : fg.guid ≠ g := by
      simpa [ProviderOp.releases] using hop
    simp only [GuidProvider.step, GuidProvider.releaseGuid]
    cases hfg : lookupGuid p.mapping fg.guid with
    | none => exact ⟨hlt, hlook⟩
    | some e =>
      refine ⟨hlt, ?_⟩
      show lookupGuid (removeGuid p.mapping fg.guid) g = some x
      rw [lookupGuid_removeGuid_ne _ _ _ hne]
      exact hlook

/-- A binding below the minting counter survives every sequence of operations that
does not release its identifier. -/
theorem GuidProvider.run_preserves (ops : List ProviderOp) (p : GuidProvider) (g : ocrGuid_t)
    (x : u64 × ocrGuidKind) (hops : ∀ op ∈ ops, op.releases g = false)
    (hlt : g < p.nextGuid) (hlook : lookupGuid p.mapping g = some x) :
    lookupGuid (p.run ops).mapping g = some x := by
  induction ops generalizing p with
  | nil => exact hlook
  | cons op rest ih =>
    have h := GuidProvider.step_preserves p op g x (hops op (List.mem_cons_self _ _)) hlt hlook
    exact ih (p.step op) (fun o ho => hops o (List.mem_cons_of_mem _ ho)) h.1 h.2

/-! ## Theorems: the provider -/

/-- C5: round trip of the provider.  If `getGuid(value, kind)` succeeds and returns the
identifier `g`, then after any sequence of provider operations that contains no
`releaseGuid` of `g` (the empty sequence included), `getVal(g)` succeeds and returns
exactly `(value, kind)`. -/
theorem GuidProvider.getGuid_getVal_roundtrip (p p' : GuidProvider) (value : u64)
    (kind : ocrGuidKind) (g : ocrGuid_t) (ops : List ProviderOp)
    (hget : p.getGuid value kind = .ok (g, p'))
    (hops : ∀ op ∈ ops, op.releases g = false) :
    (p'.run ops).getVal g = .ok (value, kind) := by
  obtain ⟨hg, hnext, hmap⟩ := GuidProvider.getGuid_ok p p' value kind g hget
  have hlt : g < p'.nextGuid := by rw [hnext, hg]; exact Nat.lt_succ_self _
  have hlook : lookupGuid p'.mapping g = some (value, kind) := by
    rw [hmap]; exact lookupGuid_cons_self g (value, kind) p.mapping
  have h := GuidProvider.run_preserves ops p' g (value, kind) hops hlt hlook
  simp [GuidProvider.getVal, h]

/-- Witness of C5: on the empty provider, `getGuid(0xDEADBEEF, WORKER)` mints identifier
1, and after a `createGuid`, a second `getGuid`, and a release of the second identifier,
`getVal(1)` still returns `(0xDEADBEEF, WORKER)`. -/
theorem GuidProvider.getGuid_getVal_roundtrip_witness :
    (({ GuidProvider.empty with
          mapping := [(1, 0xDEADBEEF, .OCR_GUID_WORKER)], nextGuid := 2 } : GuidProvider).run
        [.createGuid 64 .OCR_GUID_EDT, .getGuid 5 .OCR_GUID_EVENT,
         .releaseGuid { guid := 2, metaDataPtr := 4096 } true]).getVal 1 =
      .ok (0xDEADBEEF, .OCR_GUID_WORKER) :=
  GuidProvider.getGuid_getVal_roundtrip GuidProvider.empty _ 0xDEADBEEF .OCR_GUID_WORKER 1
    [.createGuid 64 .OCR_GUID_EDT, .getGuid 5 .OCR_GUID_EVENT,
     .releaseGuid { guid := 2, metaDataPtr := 4096 } true]
    rfl (by decide)

/-! ## Lemmas: `getCurrentEdt` -/

/-- When `getVal` stores a non-null address that holds a worker object,
`getCurrentEdt` makes three calls (the accessor, `getVal` with a null kind pointer, and
the worker query on the stored address) and returns the answer of the query. -/
theorem getCurrentEdt_resolved {σ : Type} (E : Collaborators σ) (s : σ) (w : u64)
    (obj : ocrWorker_t σ)
    (hval : (E.getVal s (E.ocr_get_current_worker_guid s) false).1.val = some w)
    (hw : w ≠ NULL)
    (hobj : E.workerAt (E.getVal s (E.ocr_get_current_worker_guid s) false).2 w = some obj) :
    getCurrentEdt E s =
      { calls := [Call.ocr_get_current_worker_guid,
                  Call.getVal (E.ocr_get_current_worker_guid s) false,
                  Call.getCurrentEDT w],
        outcome := .ok (obj.getCurrentEDT w
          (E.getVal s (E.ocr_get_current_worker_guid s) false).2),
        state := (E.getVal s (E.ocr_get_current_worker_guid s) false).2 } := by
  simp [getCurrentEdt, hval, hw, hobj]

/-- When `getVal` stores nothing through `val`, whatever code it returns,
`getCurrentEdt` makes no further call and stops on the dereference of the null
`worker` pointer. -/
theorem getCurrentEdt_unresolved {σ : Type} (E : Collaborators σ) (s : σ)
    (hval : (E.getVal s (E.ocr_get_current_worker_guid s) false).1.val = none) :
    getCurrentEdt E s =
      { calls := [Call.ocr_get_current_worker_guid,
                  Call.getVal (E.ocr_get_current_worker_guid s) false],
        outcome := .error Fault.nullDeref,
        state := (E.getVal s (E.ocr_get_current_worker_guid s) false).2 } := by
  simp [getCurrentEdt, hval]

/-- The provider of a `World` seen through its C operations satisfies the round-trip
law. -/
theorem World.roundTripLaw : RoundTripLaw World.getGuid World.getVal := by
  intro s v k hrc kindRequested
  unfold World.getGuid at hrc ⊢
  cases hg : s.globalGuidProvider.getGuid v k with
  | error err =>
    rw [hg] at hrc
    cases err <;> simp [GuidError.code] at hrc
  | ok r =>
    obtain ⟨g, p'⟩ := r
    obtain ⟨_, _, hmap⟩ := GuidProvider.getGuid_ok _ _ _ _ _ hg
    simp [World.getVal, GuidProvider.getVal, hmap, lookupGuid_cons_self]

/-! ## Theorems: `getCurrentEdt` -/

/-- C4: in every state where `getVal` on the calling thread's worker identifier returns
0 and stores the address `w` of a worker object, `getCurrentEdt` returns exactly what
that object's `getCurrentEDT` answers for `w`.  In particular, on a provider satisfying
the round-trip law, if the calling thread's worker identifier was minted by
`getGuid(w, WORKER)`, `getCurrentEdt` returns the answer of `w`'s query. -/
theorem getCurrentEdt_returns_current_task {σ : Type} (E : Collaborators σ) :
    (∀ (s : σ) (w : u64) (obj : ocrWorker_t σ),
      (E.getVal s (E.ocr_get_current_worker_guid s) false).1.rc = 0 →
      (E.getVal s (E.ocr_get_current_worker_guid s) false).1.val = some w →
      w ≠ NULL →
      E.workerAt (E.getVal s (E.ocr_get_current_worker_guid s) false).2 w = some obj →
      (getCurrentEdt E s).outcome =
        .ok (obj.getCurrentEDT w (E.getVal s (E.ocr_get_current_worker_guid s) false).2)) ∧
    (∀ (getGuid : σ → u64 → ocrGuidKind → (u8 × ocrGuid_t) × σ),
      RoundTripLaw getGuid E.getVal →
      ∀ (s0 : σ) (w : u64) (obj : ocrWorker_t σ),
        (getGuid s0 w .OCR_GUID_WORKER).1.1 = 0 →
        E.ocr_get_current_worker_guid (getGuid s0 w .OCR_GUID_WORKER).2 =
          (getGuid s0 w .OCR_GUID_WORKER).1.2 →
        w ≠ NULL →
        E.workerAt (E.getVal (getGuid s0 w .OCR_GUID_WORKER).2
          (getGuid s0 w .OCR_GUID_WORKER).1.2 false).2 w = some obj →
        (getCurrentEdt E (getGuid s0 w .OCR_GUID_WORKER).2).outcome =
          .ok (obj.getCurrentEDT w (E.getVal (getGuid s0 w .OCR_GUID_WORKER).2
            (getGuid s0 w .OCR_GUID_WORKER).1.2 false).2)) := by
  constructor
  · intro s w obj _ hval hw hobj
    rw [getCurrentEdt_resolved E s w obj hval hw hobj]
  · intro getGuid hlaw s0 w obj hrc hcur hw hobj
    have hres := hlaw s0 w .OCR_GUID_WORKER hrc false
    rw [← hcur] at hres hobj
    have hval : (E.getVal (getGuid s0 w .OCR_GUID_WORKER).2
        (E.ocr_get_current_worker_guid (getGuid s0 w .OCR_GUID_WORKER).2) false).1.val =
        some w := by rw [hres]
    rw [getCurrentEdt_resolved E _ w obj hval hw hobj, hcur]

/-- Witness of C4: on the sample state the worker at address 1 is executing task 42 and
`getCurrentEdt` returns 42; the same holds after minting the worker's identifier with
`getGuid(1, WORKER)` on the empty provider. -/
theorem getCurrentEdt_returns_current_task_witness :
    (getCurrentEdt World.collaborators sampleWorld).outcome = .ok 42 ∧
    (getCurrentEdt World.collaborators
      (World.getGuid freshWorld 1 .OCR_GUID_WORKER).2).outcome = .ok 42 :=
  ⟨(getCurrentEdt_returns_current_task World.collaborators).1 sampleWorld 1
      { getCurrentEDT := fun _ _ => 42 } rfl rfl (by decide) rfl,
   (getCurrentEdt_returns_current_task World.collaborators).2 World.getGuid
      World.roundTripLaw freshWorld 1 { getCurrentEDT := fun _ _ => 42 } rfl rfl
      (by decide) rfl⟩

/-- C6: evaluation at the failing input.  In the state whose calling thread is bound to
identifier 9, which is not live, `getVal` returns the non-zero code of `UnknownGuid`
and stores nothing; `getCurrentEdt` makes no use of the code, and stops on the
dereference of the null `worker` pointer. -/
theorem getCurrentEdt_unknown_guid_null_deref :
    (World.getVal staleWorld staleWorld.currentWorkerGuid false).1 =
      { rc := GuidError.UnknownGuid.code, val := none, kind := none } ∧
    GuidError.UnknownGuid.code ≠ 0 ∧
    getCurrentEdt World.collaborators staleWorld =
      { calls := [Call.ocr_get_current_worker_guid, Call.getVal 9 false],
        outcome := .error Fault.nullDeref,
        state := staleWorld } := by
  refine ⟨rfl, by decide, rfl⟩

/-- C7, counterexample: in the state whose worker identifier 1 is live and bound to
the address 1 with kind EDT, which is not WORKER, `getCurrentEdt` invokes
`getCurrentEDT` on the resolved address 1 and returns its answer. -/
theorem getCurrentEdt_kind_unchecked_counterexample :
    mistaggedWorld.globalGuidProvider.getVal mistaggedWorld.currentWorkerGuid =
      .ok (1, ocrGuidKind.OCR_GUID_EDT) ∧
    ocrGuidKind.OCR_GUID_EDT ≠ ocrGuidKind.OCR_GUID_WORKER ∧
    Call.getCurrentEDT 1 ∈ (getCurrentEdt World.collaborators mistaggedWorld).calls ∧
    (getCurrentEdt World.collaborators mistaggedWorld).outcome = .ok 42 := by
  refine ⟨rfl, by decide, by decide, rfl⟩

/-- C7, amended: `getCurrentEdt` calls `getVal` with a null kind pointer and checks no
kind: whenever the calling thread's worker identifier resolves to a non-null address
`w` holding a worker object, whatever kind `k` the identifier is bound to,
`getCurrentEdt` invokes `getCurrentEDT` on `w` and returns its answer. -/
theorem getCurrentEdt_ignores_kind {σ : Type} (E : Collaborators σ) (s : σ) (w : u64)
    (k : ocrGuidKind) (obj : ocrWorker_t σ)
    (hres : Resolves E s (E.ocr_get_current_worker_guid s) w k)
    (hw : w ≠ NULL)
    (hobj : E.workerAt (E.getVal s (E.ocr_get_current_worker_guid s) false).2 w = some obj) :
    getCurrentEdt E s =
      { calls := [Call.ocr_get_current_worker_guid,
                  Call.getVal (E.ocr_get_current_worker_guid s) false,
                  Call.getCurrentEDT w],
        outcome := .ok (obj.getCurrentEDT w
          (E.getVal s (E.ocr_get_current_worker_guid s) false).2),
        state := (E.getVal s (E.ocr_get_current_worker_guid s) false).2 } := by
  have hval : (E.getVal s (E.ocr_get_current_worker_guid s) false).1.val = some w := by
    rw [hres false]
  exact getCurrentEdt_resolved E s w obj hval hw hobj

/-- Witness of C7, amended, at the state whose worker identifier is bound with kind
EDT. -/
theorem getCurrentEdt_ignores_kind_witness :
    Resolves World.collaborators mistaggedWorld 1 1 .OCR_GUID_EDT ∧
    getCurrentEdt World.collaborators mistaggedWorld =
      { calls := [Call.ocr_get_current_worker_guid, Call.getVal 1 false,
                  Call.getCurrentEDT 1],
        outcome := .ok 42,
        state := mistaggedWorld } :=
  ⟨by intro b; cases b <;> rfl,
   getCurrentEdt_ignores_kind World.collaborators mistaggedWorld 1 .OCR_GUID_EDT
     { getCurrentEDT := fun _ _ => 42 } (by intro b; cases b <;> rfl) (by decide) rfl⟩

/-- C8: the provider operations among the calls of `getCurrentEdt` are exactly one
`getVal` on the calling thread's worker identifier; none of its calls is `getGuid`,
`createGuid` or `releaseGuid`; its final state is the state `getVal` leaves, so for
every view `mapping` of the state that `getVal` does not change, the mapping after
`getCurrentEdt` equals the mapping before it. -/
theorem getCurrentEdt_frame {σ M : Type} (E : Collaborators σ) (mapping : σ → M) (s : σ) :
    (getCurrentEdt E s).calls.filter Call.isProviderOp =
      [Call.getVal (E.ocr_get_current_worker_guid s) false] ∧
    (∀ c ∈ (getCurrentEdt E s).calls, c.isMappingUpdate = false) ∧
    (getCurrentEdt E s).state = (E.getVal s (E.ocr_get_current_worker_guid s) false).2 ∧
    ((∀ (t : σ) (g : ocrGuid_t) (kindRequested : Bool),
        mapping (E.getVal t g kindRequested).2 = mapping t) →
      mapping (getCurrentEdt E s).state = mapping s) := by
  have hstate : (getCurrentEdt E s).state =
      (E.getVal s (E.ocr_get_current_worker_guid s) false).2 := by
    unfold getCurrentEdt
    simp only
    split_ifs
    · rfl
    · split <;> rfl
  refine ⟨?_, ?_, hstate, ?_⟩
  · unfold getCurrentEdt
    simp only
    split_ifs
    · simp [Call.isProviderOp]
    · split <;> simp [Call.isProviderOp]
  · unfold getCurrentEdt
    simp only
    split_ifs
    · simp [Call.isMappingUpdate]
    · split <;> simp [Call.isMappingUpdate]
  · intro hframe
    rw [hstate]
    exact hframe s _ false

/-- Witness of C8 on the sample state, whose `getVal` leaves the provider as it is. -/
theorem getCurrentEdt_frame_witness :
    (getCurrentEdt World.collaborators sampleWorld).state.globalGuidProvider.mapping =
      sampleWorld.globalGuidProvider.mapping :=
  (getCurrentEdt_frame World.collaborators (fun t => t.globalGuidProvider.mapping)
      sampleWorld).2.2.2
    (by
      intro t g kindRequested
      show (World.getVal t g kindRequested).2.globalGuidProvider.mapping = _
      unfold World.getVal
      split <;> rfl)

end OCR
